import Mathlib

/-
Shallow embedding of the feature_engine repository (Morgan-Sell fork),
covering the modules under src/: the target-mean predictor, the mean
encoder, the base discretiser, the base lag/forecast transformer and the
information-value selector.  Python exceptions are modelled by the spec's
error taxonomy (section 7); dynamically typed constructor arguments by
`PyArg`; dataframes by association lists of named columns.
-/

namespace FeatureEngine

/-- Error taxonomy of the spec (section 7), used to model the Python
exceptions raised by the source (`ValueError`, `TypeError`,
`NotImplementedError`, `AttributeError`, `NameError`, sklearn's
`NotFittedError`). -/
inductive PyErr
  | typeError
  | notFittedError
  | schemaMismatchError
  | dataIntegrityError
  | indexIntegrityError
  | configurationError
  | attributeError
  | nameError
  deriving DecidableEq, Repr

/-- Dynamically typed Python value, for constructor arguments whose type is
only checked at run time. -/
inductive PyArg
  | pyBool (b : Bool)
  | pyStr (s : String)
  | pyInt (n : Int)
  | pyNone
  deriving DecidableEq, Repr

/-- Python `isinstance(x, bool)`. -/
def PyArg.isBool : PyArg → Bool
  | .pyBool _ => true
  | _ => false

/-- Python `isinstance(x, int) and x > 0`. -/
def PyArg.isPosInt : PyArg → Bool
  | .pyInt n => decide (0 < n)
  | _ => false

/-- Cell of a mixed-type dataframe: a string category, a number, or NaN. -/
inductive CellVal
  | str (s : String)
  | num (q : ℚ)
  | nan
  deriving DecidableEq, Repr

/-- Dataframe with mixed-type columns: an ordered association list of named
columns. -/
abbrev Frame := List (String × List CellVal)

/-- Column of a frame by name (empty when absent). -/
def colOf (X : Frame) (v : String) : List CellVal :=
  (X.lookup v).getD []

/-- Number of rows of a frame (length of its first column). -/
def numRows (X : Frame) : ℕ :=
  (X.head?.map (fun c => c.2.length)).getD 0

/-- Python `_check_contains_na(X)`: does any cell of the frame hold NaN? -/
def frameContainsNa (X : Frame) : Bool :=
  X.any (fun c => c.2.any (fun x => x = CellVal.nan))

/-- Input passed to a method expecting a dataframe: either a frame or some
other Python object (e.g. a Series), which `_is_dataframe` rejects. -/
inductive PyInput
  | frame (f : Frame)
  | notFrame
  deriving DecidableEq, Repr

/- ------------------------------------------------------------------ -/
/- TargetMeanPredictor (src/feature_engine/prediction/target_mean_prediction.py) -/
/- ------------------------------------------------------------------ -/

/-- Constructor parameters of `TargetMeanPredictor.__init__` (src lines
63-76): the constructor accepts exactly `regression`, `bins`, `strategy`
and performs no validation. -/
structure TargetMeanPredictorParams where
  regression : Bool
  bins : ℕ
  strategy : String
  deriving DecidableEq, Repr

/-- State of a `TargetMeanPredictor` object after construction or fit.
Attributes that a completed fit would create are `Option`s: `Option.none`
models a Python attribute that was never assigned (reading it raises
`AttributeError`). -/
structure TargetMeanPredictorState where
  params : TargetMeanPredictorParams
  variables_ : Option (List String)
  encoder_num_dict_ : Option (List (String × List (ℕ × ℚ)))
  encoder_cat_dict_ : Option (List (String × List (String × ℚ)))
  deriving DecidableEq, Repr

/-- Embeds `TargetMeanPredictor.fit` (src lines 78-104).  The method checks
that `X` is a dataframe (`_is_dataframe`), checks it for NaN
(`_check_contains_na`), coerces `y` to a Series, reaches
`if self.regression is True: pass`, and falls off the end: it assigns no
fitted attribute and returns Python `None`.  The result tuple is
(returned value, predictor object after the call, X after the call,
y after the call). -/
def TargetMeanPredictor.fit (p : TargetMeanPredictorParams) (X : PyInput)
    (y : List CellVal) :
    Except PyErr
      (Option TargetMeanPredictorState × TargetMeanPredictorState ×
        Frame × List CellVal) :=
  match X with
  | .notFrame => .error .typeError
  | .frame f =>
    if frameContainsNa f then .error .dataIntegrityError
    else
      .ok (Option.none,
           { params := p, variables_ := Option.none,
             encoder_num_dict_ := Option.none,
             encoder_cat_dict_ := Option.none },
           f, y)

/-- Embeds `TargetMeanPredictor.predict` (src lines 107-121): the body is
`pass`, so the method returns Python `None` for every state and input —
never a sequence of per-row predictions. -/
def TargetMeanPredictor.predict (s : TargetMeanPredictorState) (X : Frame) :
    Option (List ℚ) :=
  Option.none

/-- Reference constructor arguments of the spec scenario:
`TargetMeanPredictor(bins=5, strategy="equal-width")`. -/
def refParams : TargetMeanPredictorParams :=
  { regression := true, bins := 5, strategy := "equal-width" }

/-- Reference training table with columns City and Age (the spec scenario's
`df_pred[["City", "Age"]]`).  `TargetMeanPredictor.fit` never reads the cell
values, so representative NaN-free rows suffice. -/
def refX : Frame :=
  [("City", [CellVal.str "London", CellVal.str "Bristol",
             CellVal.str "Liverpool", CellVal.str "Manchester"]),
   ("Age", [CellVal.num 20, CellVal.num 44, CellVal.num 31, CellVal.num 23])]

/-- Reference target column Marks. -/
def refMarks : List CellVal :=
  [CellVal.num (7/10), CellVal.num (1/10), CellVal.num (5/10),
   CellVal.num (6/10)]

/-- Reference 6-row prediction-time table (the spec scenario's
`df_pred_small`); `predict` never reads it. -/
def refXsmall : Frame :=
  [("City", [CellVal.str "Salisbury", CellVal.str "London",
             CellVal.str "Bristol", CellVal.str "London",
             CellVal.str "Liverpool", CellVal.str "Manchester"]),
   ("Age", [CellVal.num 22, CellVal.num 30, CellVal.num 40,
            CellVal.num 53, CellVal.num 28, CellVal.num 35])]

/-- A fitted-state value used to instantiate `predict` theorems. -/
def refStubState : TargetMeanPredictorState :=
  { params := refParams, variables_ := Option.none,
    encoder_num_dict_ := Option.none, encoder_cat_dict_ := Option.none }

/- ------------------------------------------------------------------ -/
/- InformationValue (src/feature_engine/selection/information_value.py) -/
/- ------------------------------------------------------------------ -/

/-- Object state an `InformationValue.__init__` would have to build
(`variablesCfg` models the Python attribute `variables`, a name Lean
reserves). -/
structure InformationValueSelf where
  variablesCfg : Option (List String)
  confirm_variables : Bool
  gnore_format : Bool
  errors : String
  ignore_format : Bool
  deriving DecidableEq, Repr

/-- Embeds `InformationValue.__init__` (src lines 25-37).  After
`super().__init__(confirm_variables)` and
`self.variables = _check_input_parameter_variables(variables)` — validation
helpers that succeed on well-typed arguments, which the Lean argument types
enforce — the line `self.ignore_format = ignore_format` reads the unbound
name `ignore_format` (the parameter is spelled `gnore_format`, and no
module-level binding of that name is in scope), so Python raises
`NameError` before the object is completed. -/
def InformationValue.init (variablesCfg : Option (List String))
    (confirm_variables : Bool) (gnore_format : Bool) (errors : String) :
    Except PyErr InformationValueSelf :=
  .error .nameError

/- ------------------------------------------------------------------ -/
/- Lag/Forecast transformer (src/feature_engine/timeseries/forecasting/base_forecast.py) -/
/- ------------------------------------------------------------------ -/

/-- Numeric cell of a time-series frame: a float that may be NaN or
infinite. -/
inductive FloatVal
  | nan
  | pinf
  | ninf
  | val (q : ℚ)
  deriving DecidableEq, Repr

/-- Pandas `isna` on a float cell. -/
def FloatVal.isNa : FloatVal → Bool
  | .nan => true
  | _ => false

/-- Pandas `np.isinf` on a float cell. -/
def FloatVal.isInf : FloatVal → Bool
  | .pinf => true
  | .ninf => true
  | _ => false

/-- Row-indexed numeric dataframe: an index column (entries may be missing,
modelled by `Option.none`), ordered column names, and row-major data. -/
structure TSFrame where
  index : List (Option ℤ)
  colNames : List String
  rows : List (List FloatVal)
  deriving DecidableEq, Repr

/-- Pandas `Index.is_unique`: no element occurs twice. -/
def listIsUnique {α : Type} [DecidableEq α] : List α → Bool
  | [] => true
  | a :: t => !(t.contains a) && listIsUnique t

/-- Pandas `X.index.isnull().sum() > 0`. -/
def TSFrame.indexHasNull (X : TSFrame) : Bool :=
  X.index.any Option.isNone

/-- Column of a time-series frame by name (empty when the name is absent). -/
def TSFrame.col (X : TSFrame) (name : String) : List FloatVal :=
  match X.colNames.indexOf? name with
  | some j => X.rows.map (fun r => r.getD j FloatVal.nan)
  | Option.none => []

/-- Python `_check_contains_na(X, variables)`: does a selected column hold
NaN? -/
def tsContainsNa (X : TSFrame) (vars : List String) : Bool :=
  vars.any (fun v => (X.col v).any FloatVal.isNa)

/-- Python `_check_contains_inf(X, variables)`: does a selected column hold
an infinity? -/
def tsContainsInf (X : TSFrame) (vars : List String) : Bool :=
  vars.any (fun v => (X.col v).any FloatVal.isInf)

/-- Insertion step of a stable ascending sort of (index, row) pairs. -/
def insertByIdx (p : Option ℤ × List FloatVal) :
    List (Option ℤ × List FloatVal) → List (Option ℤ × List FloatVal)
  | [] => [p]
  | q :: t =>
    if p.1.getD 0 ≤ q.1.getD 0 then p :: q :: t else q :: insertByIdx p t

/-- Pandas `X.sort_index()`: reorder the rows (with their index entries) by
ascending index value. -/
def TSFrame.sortIndex (X : TSFrame) : TSFrame :=
  let sorted := (X.index.zip X.rows).foldr insertByIdx []
  { index := sorted.map Prod.fst, colNames := X.colNames,
    rows := sorted.map Prod.snd }

/-- Object state of a forecast transformer when `transform` is entered:
the validated constructor parameters, the selected variables, the
`sort_index` flag set by the concrete subclass, and `n_features_in_`
(`Option.none` models the attribute a fit never created, which
`check_is_fitted` detects). -/
structure BaseForecastState where
  missing_values : String
  drop_original : Bool
  variables_ : List String
  sort_index : Bool
  n_features_in_ : Option ℕ
  deriving DecidableEq, Repr

/-- Input passed to `BaseForecast.transform`: a frame or some other object
(e.g. a Series), which `_is_dataframe` rejects with TypeError. -/
inductive TSInput
  | frame (X : TSFrame)
  | notFrame
  deriving DecidableEq, Repr

/-- Embeds `BaseForecast.transform` (src lines 127-175), in source order:
`check_is_fitted`; `_is_dataframe`; `_check_input_matches_training_df`;
the index null check and the index uniqueness check (both raised as the
spec's IndexIntegrityError); if `missing_values == "raise"`, the NaN and
infinity checks on the selected columns (the spec's DataIntegrityError);
finally `sort_index` and return.  No shift happens here: the subclass
shifts only after this method returns a frame. -/
def BaseForecast.transform (s : BaseForecastState) (input : TSInput) :
    Except PyErr TSFrame :=
  match s.n_features_in_ with
  | Option.none => .error .notFittedError
  | some nfeat =>
    match input with
    | .notFrame => .error .typeError
    | .frame X =>
      if X.colNames.length ≠ nfeat then .error .schemaMismatchError
      else if X.indexHasNull then .error .indexIntegrityError
      else if !listIsUnique X.index then .error .indexIntegrityError
      else if s.missing_values = "raise" &&
          (tsContainsNa X s.variables_ || tsContainsInf X s.variables_) then
        .error .dataIntegrityError
      else .ok (if s.sort_index then X.sortIndex else X)

/-- Pandas `Series.shift(periods)`: each selected column moves down by
`periods` rows, the freed leading cells becoming NaN. -/
def shiftForward (periods : ℕ) (col : List FloatVal) : List FloatVal :=
  (List.replicate periods FloatVal.nan ++ col).take col.length

/-- Append named columns to a frame, row by row. -/
def TSFrame.appendCols (X : TSFrame) (names : List String)
    (cols : List (List FloatVal)) : TSFrame :=
  { index := X.index, colNames := X.colNames ++ names,
    rows := (List.range X.rows.length).map
      (fun i => X.rows.getD i [] ++ cols.map (fun c => c.getD i FloatVal.nan)) }

/-- Modelled from the spec: `TimeSeriesLagTransformer.transform` is not
under src/ (only `BaseForecast` and the tests are).  Per the spec (section
4.4) it first runs the shared checks of `BaseForecast.transform` (which is
under src/), then shifts each selected column by `periods`, appending new
columns suffixed with the period, originals retained unless
`drop_original`.  An error from the shared checks therefore propagates
before any shift is performed. -/
def TimeSeriesLagTransformer.transform (s : BaseForecastState) (periods : ℕ)
    (input : TSInput) : Except PyErr TSFrame :=
  (BaseForecast.transform s input).map (fun X =>
    let lagged := X.appendCols
      (s.variables_.map (fun v => v ++ "_lag_" ++ toString periods ++ "pds"))
      (s.variables_.map (fun v => shiftForward periods (X.col v)))
    if s.drop_original then
      { lagged with
        colNames := lagged.colNames.filter (fun c => !(s.variables_.contains c)),
        rows := lagged.rows.map (fun r =>
          ((lagged.colNames.zip r).filter
            (fun p => !(s.variables_.contains p.1))).map Prod.snd) }
    else lagged)

/-- Constructor parameters accepted by `BaseForecast.__init__`. -/
structure BaseForecastParams where
  missing_values : String
  drop_original : Bool
  deriving DecidableEq, Repr

/-- Python string or boolean payload of a validated argument. -/
def PyArg.asBool : PyArg → Bool
  | .pyBool b => b
  | _ => false

/-- String payload of a validated argument. -/
def PyArg.asStr : PyArg → String
  | .pyStr s => s
  | _ => ""

/-- Integer payload of a validated argument. -/
def PyArg.asInt : PyArg → Int
  | .pyInt n => n
  | _ => 0

/-- Embeds `BaseForecast.__init__` (src lines 51-70): `missing_values` must
be the string "raise" or "ignore", `drop_original` must be a boolean;
otherwise construction raises (the spec's ConfigurationError), eagerly and
before any data is seen — the constructor receives no data at all. -/
def BaseForecast.init (missing_values drop_original : PyArg) :
    Except PyErr BaseForecastParams :=
  if ¬ (missing_values = PyArg.pyStr "raise" ∨
        missing_values = PyArg.pyStr "ignore") then
    .error .configurationError
  else if drop_original.isBool = false then
    .error .configurationError
  else
    .ok { missing_values := missing_values.asStr,
          drop_original := drop_original.asBool }

/-- Constructor parameters of the lag transformer. -/
structure TimeSeriesLagParams where
  base : BaseForecastParams
  periods : Int
  deriving DecidableEq, Repr

/-- Modelled from the spec: `TimeSeriesLagTransformer.__init__` is not
under src/.  Per the spec (sections 4.4, 7 and the scenario
`TimeSeriesLagTransformer(periods="cumbia")`), `periods` must be a positive
integer, checked eagerly at construction before any data is seen; the
shared `missing_values` and `drop_original` checks are those of
`BaseForecast.__init__` (src). -/
def TimeSeriesLagTransformer.init (periods missing_values drop_original : PyArg) :
    Except PyErr TimeSeriesLagParams :=
  if periods.isPosInt = false then .error .configurationError
  else
    (BaseForecast.init missing_values drop_original).map
      (fun b => { base := b, periods := periods.asInt })

/- ------------------------------------------------------------------ -/
/- Discretiser (src/feature_engine/discretisation/base_discretiser.py) -/
/- ------------------------------------------------------------------ -/

/-- Bin edge: pandas interval boundary, possibly infinite. -/
inductive Edge
  | ninf
  | fin (q : ℚ)
  | pinf
  deriving DecidableEq, Repr

/-- Strict comparison edge < value. -/
def Edge.ltVal : Edge → ℚ → Bool
  | .ninf, _ => true
  | .fin q, v => decide (q < v)
  | .pinf, _ => false

/-- Comparison value ≤ edge. -/
def Edge.geVal : Edge → ℚ → Bool
  | .ninf, _ => false
  | .fin q, v => decide (v ≤ q)
  | .pinf, _ => true

/-- Embeds `pandas.cut(x, edges, labels=False)` for one value with the
default right-closed intervals: the value lands in bin `i` exactly when
`edges[i] < v ≤ edges[i+1]`; a value in no interval yields NaN
(`Option.none`). -/
def pdCut : List Edge → ℚ → Option ℕ
  | e1 :: e2 :: rest, v =>
    if e1.ltVal v && e2.geVal v then some 0
    else (pdCut (e2 :: rest) v).map (· + 1)
  | _, _ => Option.none

/-- Modelled from the spec: `EqualWidthDiscretiser.fit` is not under src/
(only `BaseDiscretiser` is).  Per the spec (section 4.1), fit computes a
Bin Edge Set dividing the training range [lo, hi] of the variable into
`bins` equal-length intervals, and "values outside the training range map
to the nearest boundary interval (i.e., first/last bin)", i.e. the
outermost edges are unbounded. -/
def interiorEdges (lo hi : ℚ) (bins : ℕ) : List Edge :=
  (List.range (bins - 1)).map
    (fun i : ℕ => Edge.fin (lo + (hi - lo) * ((i : ℚ) + 1) / bins))

/-- Full edge list: unbounded outermost edges around the interior ones. -/
def equalWidthEdges (lo hi : ℚ) (bins : ℕ) : List Edge :=
  Edge.ninf :: (interiorEdges lo hi bins ++ [Edge.pinf])

/-- Constructor parameters accepted by `BaseDiscretiser.__init__`. -/
structure BaseDiscretiserParams where
  return_object : Bool
  return_boundaries : Bool
  errors : String
  deriving DecidableEq, Repr

/-- Embeds `BaseDiscretiser.__init__` (src lines 53-74): `return_object`
and `return_boundaries` must be booleans and `errors` must be "ignore" or
"raise"; otherwise construction raises (the spec's ConfigurationError),
eagerly — the constructor receives no data. -/
def BaseDiscretiser.init (return_object return_boundaries errors : PyArg) :
    Except PyErr BaseDiscretiserParams :=
  if return_object.isBool = false then .error .configurationError
  else if return_boundaries.isBool = false then .error .configurationError
  else if ¬ (errors = PyArg.pyStr "ignore" ∨ errors = PyArg.pyStr "raise") then
    .error .configurationError
  else
    .ok { return_object := return_object.asBool,
          return_boundaries := return_boundaries.asBool,
          errors := errors.asStr }

/-- Object state of a discretiser when `transform` is entered.
`binner_dict_` is set by a subclass fit (`Option.none` = not fitted);
`encoder_dict_` is an attribute no discretiser ever assigns, modelled as an
`Option` that stays `Option.none` (reading it raises AttributeError). -/
structure BaseDiscretiserSelf where
  params : BaseDiscretiserParams
  variables_ : List String
  binner_dict_ : Option (List (String × List Edge))
  encoder_dict_ : Option (List (String × List Edge))
  deriving DecidableEq, Repr

/-- Numeric dataframe for discretisation: named columns of floats where
`Option.none` models NaN. -/
abbrev NumFrame := List (String × List (Option ℚ))

/-- Python `_check_contains_na(X, variables)` on a numeric frame. -/
def numContainsNa (X : NumFrame) (vars : List String) : Bool :=
  vars.any (fun v => ((X.lookup v).getD []).any Option.isNone)

/-- Cell of a discretised output frame: an integer bin label, an interval
of boundaries, an untouched numeric value, or NaN. -/
inductive DiscOut
  | nan
  | idx (n : ℕ)
  | interval (lo hi : Edge)
  | raw (q : ℚ)
  deriving DecidableEq, Repr

/-- One cell under `pd.cut(..., labels=False)`. -/
def cutIdx (edges : List Edge) (x : Option ℚ) : DiscOut :=
  match x with
  | Option.none => .nan
  | some v =>
    match pdCut edges v with
    | some i => .idx i
    | Option.none => .nan

/-- One cell under `pd.cut(...)` returning interval boundaries
(`return_boundaries=True`). -/
def cutBounds (edges : List Edge) (x : Option ℚ) : DiscOut :=
  match x with
  | Option.none => .nan
  | some v =>
    match pdCut edges v with
    | some i => .interval (edges.getD i Edge.ninf) (edges.getD (i + 1) Edge.pinf)
    | Option.none => .nan

/-- Is an output cell pandas-null? -/
def DiscOut.isNa : DiscOut → Bool
  | .nan => true
  | _ => false

/-- Input passed to `BaseDiscretiser.transform`. -/
inductive NumInput
  | frame (X : NumFrame)
  | notFrame
  deriving DecidableEq, Repr

/-- Embeds `BaseDiscretiser.transform` (src lines 77-131).  The initial
`super().transform(X)` (BaseNumericalTransformer, not under src/) is
modelled from the spec as the fitted check, the dataframe check and the
NaN check on the selected columns.  Then each selected column is replaced
by `pd.cut` output (boundaries or integer labels per
`return_boundaries`).  Finally line 111 reads
`X[self.encoder_dict_.keys()]` — an attribute a discretiser never sets, so
when it is absent the lookup raises AttributeError; when present, NaN
introduced by the discretisation warns (`errors == "ignore"`) or raises
(`errors == "raise"`, the spec's DataIntegrityError). -/
def BaseDiscretiser.transform (s : BaseDiscretiserSelf) (input : NumInput) :
    Except PyErr (List (String × List DiscOut)) :=
  match s.binner_dict_ with
  | Option.none => .error .notFittedError
  | some binner =>
    match input with
    | .notFrame => .error .typeError
    | .frame X =>
      if numContainsNa X s.variables_ then .error .dataIntegrityError
      else
        let cutCell := fun (edges : List Edge) (x : Option ℚ) =>
          if s.params.return_boundaries then cutBounds edges x
          else cutIdx edges x
        let X1 : List (String × List DiscOut) := X.map (fun c =>
          if s.variables_.contains c.1 then
            (c.1, c.2.map (cutCell ((binner.lookup c.1).getD [])))
          else
            (c.1, c.2.map (fun x =>
              match x with
              | some q => DiscOut.raw q
              | Option.none => DiscOut.nan)))
        match s.encoder_dict_ with
        | Option.none => .error .attributeError
        | some enc =>
          if (enc.map Prod.fst).any
              (fun k => ((X1.lookup k).getD []).any DiscOut.isNa) then
            if s.params.errors = "raise" then .error .dataIntegrityError
            else .ok X1
          else .ok X1

/- ------------------------------------------------------------------ -/
/- MeanEncoder (src/feature_engine/encoding/mean_encoding.py) -/
/- ------------------------------------------------------------------ -/

/-- Mean of the target over the rows whose category equals `k`, computed as
the source's `temp.groupby(var)["target"].mean()` does for one group: pair
the column with the target positionally, keep the rows of the group, and
average. -/
def groupMean (col : List CellVal) (y : List ℚ) (k : CellVal) : ℚ :=
  let grp := ((col.zip y).filter (fun p => decide (p.1 = k))).map Prod.snd
  grp.sum / grp.length

/-- Embeds `temp.groupby(var)["target"].mean().to_dict()` (src line 141):
one dictionary entry per distinct observed category, holding that group's
target mean. -/
def groupbyMeanDict (col : List CellVal) (y : List ℚ) : List (CellVal × ℚ) :=
  col.dedup.map (fun k => (k, groupMean col y k))

/-- Object state of a `MeanEncoder` (`variablesCfg` models the Python
attribute `variables`, a name Lean reserves).  Attributes created by fit
are `Option`s; `Option.none` models an attribute never assigned. -/
structure MeanEncoderSelf where
  variablesCfg : Option (List String)
  ignore_format : Bool
  errors : String
  encoder_dict_ : Option (List (String × List (CellVal × ℚ)))
  variables_ : Option (List String)
  n_features_in_ : Option ℕ
  deriving DecidableEq, Repr

/-- Modelled from the spec: `_check_fit_input_and_variables`
(BaseCategorical, not under src/) resolves the configured variable list —
the user-declared list when given, else all categorical (string-valued)
columns of the table (spec sections 2 and 4.2, Variable Selector). -/
def resolveVariables (variablesCfg : Option (List String)) (X : Frame) :
    List String :=
  match variablesCfg with
  | some vs => vs
  | Option.none =>
    (X.filter (fun c => c.2.all (fun x =>
      match x with
      | .str _ => true
      | _ => false))).map Prod.fst

/-- Embeds `MeanEncoder.fit` (src lines 116-147): resolve the variables,
build one groupby-mean dictionary per variable into `encoder_dict_`,
record `n_features_in_`, and `return self`.  The result tuple is (returned
value, self after the call, X after the call, y after the call); the
method only rebinds locals and builds a fresh `temp`, so the caller's `X`
and `y` are returned unchanged, and the returned value is the updated self
object itself. -/
def MeanEncoder.fit (self : MeanEncoderSelf) (X : Frame) (y : List ℚ) :
    Except PyErr (Option MeanEncoderSelf × MeanEncoderSelf × Frame × List ℚ) :=
  let vars := resolveVariables self.variablesCfg X
  let d := vars.map (fun v => (v, groupbyMeanDict (colOf X v) y))
  let self' : MeanEncoderSelf :=
    { self with
        encoder_dict_ := some d,
        variables_ := some vars,
        n_features_in_ := some X.length }
  .ok (some self', self', X, y)

/-- Encoding dictionary learned for variable `v`, read off the state that
`MeanEncoder.fit` returns (`Option.none` when fit failed, when
`encoder_dict_` is absent, or when `v` has no entry). -/
def fittedDict (self : MeanEncoderSelf) (X : Frame) (y : List ℚ)
    (v : String) : Option (List (CellVal × ℚ)) :=
  match MeanEncoder.fit self X y with
  | .ok r =>
    match r.2.1.encoder_dict_ with
    | some d => d.lookup v
    | Option.none => Option.none
  | .error _ => Option.none

/-- Row positions of a column holding category `k` — the spec-side notion
of "the rows of X where v equals k". -/
def matchIdx (col : List CellVal) (k : CellVal) : List ℕ :=
  (List.range col.length).filter (fun i => decide (col.get? i = some k))

/-- Spec-side arithmetic mean of the target over the rows where the column
equals `k`, written with explicit row positions. -/
def specTargetMean (col : List CellVal) (y : List ℚ) (k : CellVal) : ℚ :=
  ((matchIdx col k).map (fun i => y.getD i 0)).sum / (matchIdx col k).length

/- ------------------------------------------------------------------ -/
/- Concrete inputs used by witness theorems -/
/- ------------------------------------------------------------------ -/

/-- Fitted lag-transformer state with `missing_values="raise"`, two
selected columns and two training features. -/
def wRaiseState : BaseForecastState :=
  { missing_values := "raise", drop_original := false,
    variables_ := ["ambient_temp", "module_temp"], sort_index := false,
    n_features_in_ := some 2 }

/-- Same state with `missing_values="ignore"`. -/
def wIgnoreState : BaseForecastState :=
  { wRaiseState with missing_values := "ignore" }

/-- Frame whose index holds a duplicate entry. -/
def wFrameDupIdx : TSFrame :=
  { index := [some 1, some 1, some 2],
    colNames := ["ambient_temp", "module_temp"],
    rows := [[FloatVal.val 31, FloatVal.val 49],
             [FloatVal.val 32, FloatVal.val 50],
             [FloatVal.val 33, FloatVal.val 51]] }

/-- Frame with a clean unique index but a NaN in a selected column. -/
def wFrameNa : TSFrame :=
  { index := [some 1, some 2, some 3],
    colNames := ["ambient_temp", "module_temp"],
    rows := [[FloatVal.val 31, FloatVal.nan],
             [FloatVal.val 32, FloatVal.val 50],
             [FloatVal.val 33, FloatVal.val 51]] }

/-- Fitted discretiser state: bins learned for Age, `encoder_dict_` never
assigned. -/
def wDiscSelf : BaseDiscretiserSelf :=
  { params := { return_object := false, return_boundaries := false,
                errors := "ignore" },
    variables_ := ["Age"],
    binner_dict_ := some [("Age", equalWidthEdges 20 45 5)],
    encoder_dict_ := Option.none }

/-- Numeric frame with a single NaN-free Age column. -/
def wNumFrame : NumFrame :=
  [("Age", [some 20, some 31, some 44, some (100 : ℚ)])]

/-- Mean-encoder state as constructed with `variables=["City"]`. -/
def wEncSelf : MeanEncoderSelf :=
  { variablesCfg := some ["City"], ignore_format := false,
    errors := "ignore", encoder_dict_ := Option.none,
    variables_ := Option.none, n_features_in_ := Option.none }

/-- Small training table for the mean-encoder witness. -/
def wCatX : Frame :=
  [("City", [CellVal.str "London", CellVal.str "Bristol",
             CellVal.str "London"])]

/-- Target for the mean-encoder witness. -/
def wCatY : List ℚ :=
  [1, 0, 0]

/- ------------------------------------------------------------------ -/
/- Theorems -/
/- ------------------------------------------------------------------ -/

/-- C1: fitting `TargetMeanPredictor(bins=5, strategy="equal-width")` on the
City/Age reference table against Marks runs without raising, but the fit
body is a stub: the call returns Python None and assigns no fitted
attribute, so `variables_` is absent (`Option.none`) rather than
`["City", "Age"]` and neither encoder dictionary exists — contradicting
the claim and the repository's own test `test_target_mean_predictor_fit`. -/
theorem targetMeanPredictor_fit_assigns_no_state :
    TargetMeanPredictor.fit refParams (.frame refX) refMarks
      = .ok (Option.none, refStubState, refX, refMarks)
    ∧ refStubState.variables_ ≠ some ["City", "Age"]
    ∧ refStubState.encoder_num_dict_ = Option.none
    ∧ refStubState.encoder_cat_dict_ = Option.none := by
  refine ⟨rfl, ?_, rfl, rfl⟩
  simp [refStubState]

/-- C2: `TargetMeanPredictor.predict` has body `pass`, so it returns Python
None for every fitted state and every input table — never one scalar per
row; in particular no list of predictions is produced for the 6-row
reference table, contradicting the claim and the repository's own test
`test_target_mean_predictor_transformation`. -/
theorem targetMeanPredictor_predict_returns_none :
    (∀ (s : TargetMeanPredictorState) (X : Frame),
        TargetMeanPredictor.predict s X = Option.none)
    ∧ numRows refXsmall = 6
    ∧ (TargetMeanPredictor.predict refStubState refXsmall).isNone = true := by
  exact ⟨fun _ _ => rfl, rfl, rfl⟩

/-- C9: every invocation of the `InformationValue` constructor raises a
name-resolution error: after the validation helpers succeed (which the
Lean argument types enforce), the body reads the undefined name
`ignore_format` (the parameter is spelled `gnore_format`), so no
`InformationValue` instance is ever created. -/
theorem informationValue_init_always_nameError :
    ∀ (v : Option (List String)) (cv gf : Bool) (e : String),
      InformationValue.init v cv gf e = .error .nameError
      ∧ (InformationValue.init v cv gf e).isOk = false := by
  intro v cv gf e
  exact ⟨rfl, rfl⟩

/-- C8: for every discretiser state that has a learned `binner_dict_` but no
`encoder_dict_` attribute (a discretiser never assigns one), every
`transform` call on a conforming input reaches the post-transform
missing-value check at src line 111, whose unconditional read of
`self.encoder_dict_.keys()` raises an attribute-lookup error. -/
theorem discretiser_transform_missing_encoder_dict
    (s : BaseDiscretiserSelf) (X : NumFrame) (b : List (String × List Edge))
    (hfit : s.binner_dict_ = some b)
    (henc : s.encoder_dict_ = Option.none)
    (hna : numContainsNa X s.variables_ = false) :
    BaseDiscretiser.transform s (.frame X) = .error .attributeError := by
  unfold BaseDiscretiser.transform
  rw [hfit]
  simp [hna, henc]

/-- Witness for C8 at a concrete fitted discretiser and table. -/
theorem discretiser_transform_missing_encoder_dict_witness :
    BaseDiscretiser.transform wDiscSelf (.frame wNumFrame)
      = .error .attributeError :=
  discretiser_transform_missing_encoder_dict wDiscSelf wNumFrame
    [("Age", equalWidthEdges 20 45 5)] rfl rfl (by rfl)

/-- C5: for every fitted lag transformer and every input table with a
matching column count whose index is non-unique or contains a null entry,
`transform` fails with the index-integrity error; the failure comes from
the shared checks that run before the shift, so the error propagates and
no shifted output is produced. -/
theorem lagTransform_bad_index_fails
    (s : BaseForecastState) (periods : ℕ) (X : TSFrame)
    (hfit : s.n_features_in_ = some X.colNames.length)
    (hbad : X.indexHasNull = true ∨ listIsUnique X.index = false) :
    TimeSeriesLagTransformer.transform s periods (.frame X)
      = .error .indexIntegrityError := by
  unfold TimeSeriesLagTransformer.transform BaseForecast.transform
  rw [hfit]
  rcases hbad with h | h
  · simp [h, Except.map]
  · by_cases hn : X.indexHasNull <;> simp [hn, h, Except.map]

/-- Witness for C5 at a concrete fitted state and duplicate-index table. -/
theorem lagTransform_bad_index_fails_witness :
    TimeSeriesLagTransformer.transform wRaiseState 3 (.frame wFrameDupIdx)
      = .error .indexIntegrityError :=
  lagTransform_bad_index_fails wRaiseState 3 wFrameDupIdx rfl
    (Or.inr (by rfl))

/-- C10: on a conforming input (fitted state, matching columns, clean
index) whose selected columns contain NaN or an infinity, `transform`
fails with the data-integrity error when `missing_values = "raise"`,
before any shift; when `missing_values = "ignore"` the content check is
skipped entirely and transform proceeds to return a frame. -/
theorem forecast_missing_values_policy
    (s : BaseForecastState) (X : TSFrame)
    (hfit : s.n_features_in_ = some X.colNames.length)
    (hidx0 : X.indexHasNull = false)
    (hidx1 : listIsUnique X.index = true)
    (hna : tsContainsNa X s.variables_ = true ∨
           tsContainsInf X s.variables_ = true) :
    (s.missing_values = "raise" →
      BaseForecast.transform s (.frame X) = .error .dataIntegrityError)
    ∧ (s.missing_values = "ignore" →
      BaseForecast.transform s (.frame X)
        = .ok (if s.sort_index then X.sortIndex else X)) := by
  unfold BaseForecast.transform
  rw [hfit]
  constructor
  · intro hmv
    rcases hna with h | h <;> simp [hidx0, hidx1, hmv, h]
  · intro hmv
    simp [hidx0, hidx1, hmv]

/-- Witness for C10: the same NaN-holding table errors under "raise" and
passes through unchanged under "ignore". -/
theorem forecast_missing_values_policy_witness :
    BaseForecast.transform wRaiseState (.frame wFrameNa)
      = .error .dataIntegrityError
    ∧ BaseForecast.transform wIgnoreState (.frame wFrameNa) = .ok wFrameNa := by
  constructor
  · exact (forecast_missing_values_policy wRaiseState wFrameNa rfl rfl rfl
      (Or.inl (by rfl))).1 rfl
  · have h := (forecast_missing_values_policy wIgnoreState wFrameNa rfl rfl rfl
      (Or.inl (by rfl))).2 rfl
    simpa [wIgnoreState, wRaiseState] using h

/-- C6: every invalid constructor argument is rejected eagerly at
construction — the constructors receive no data at all — with the spec's
ConfigurationError: `missing_values` outside `{"raise", "ignore"}`,
`drop_original`, `return_object` or `return_boundaries` not a boolean,
`errors` outside `{"ignore", "raise"}`, and `periods` not a positive
integer. -/
theorem constructors_reject_invalid_arguments
    (mv dr ro rb er pv : PyArg) :
    (mv ≠ PyArg.pyStr "raise" → mv ≠ PyArg.pyStr "ignore" →
        BaseForecast.init mv dr = .error .configurationError)
    ∧ (dr.isBool = false →
        BaseForecast.init mv dr = .error .configurationError)
    ∧ (ro.isBool = false →
        BaseDiscretiser.init ro rb er = .error .configurationError)
    ∧ (rb.isBool = false →
        BaseDiscretiser.init ro rb er = .error .configurationError)
    ∧ (er ≠ PyArg.pyStr "ignore" → er ≠ PyArg.pyStr "raise" →
        BaseDiscretiser.init ro rb er = .error .configurationError)
    ∧ (pv.isPosInt = false →
        TimeSeriesLagTransformer.init pv mv dr = .error .configurationError) := by
  refine ⟨?_, ?_, ?_, ?_, ?_, ?_⟩
  · intro h1 h2
    have hC : ¬(mv = PyArg.pyStr "raise" ∨ mv = PyArg.pyStr "ignore") :=
      not_or.mpr ⟨h1, h2⟩
    simp [BaseForecast.init, hC]
  · intro h
    by_cases hmv : mv = PyArg.pyStr "raise" ∨ mv = PyArg.pyStr "ignore" <;>
      simp [BaseForecast.init, hmv, h]
  · intro h
    simp [BaseDiscretiser.init, h]
  · intro h
    by_cases hro : ro.isBool = false <;>
      simp [BaseDiscretiser.init, hro, h]
  · intro h1 h2
    have hC : ¬(er = PyArg.pyStr "ignore" ∨ er = PyArg.pyStr "raise") :=
      not_or.mpr ⟨h1, h2⟩
    by_cases hro : ro.isBool = false <;>
      by_cases hrb : rb.isBool = false <;>
        simp [BaseDiscretiser.init, hro, hrb, hC]
  · intro h
    simp [TimeSeriesLagTransformer.init, h]

/-- Witness for C6: each invalid argument of the claim, including
`periods="cumbia"`, at concrete values. -/
theorem constructors_reject_invalid_arguments_witness :
    BaseForecast.init (PyArg.pyStr "banana") (PyArg.pyBool false)
      = .error .configurationError
    ∧ BaseForecast.init (PyArg.pyStr "raise") (PyArg.pyStr "cumbia")
      = .error .configurationError
    ∧ BaseDiscretiser.init (PyArg.pyInt 3) (PyArg.pyBool true)
        (PyArg.pyStr "ignore") = .error .configurationError
    ∧ BaseDiscretiser.init (PyArg.pyBool true) PyArg.pyNone
        (PyArg.pyStr "raise") = .error .configurationError
    ∧ BaseDiscretiser.init (PyArg.pyBool true) (PyArg.pyBool false)
        (PyArg.pyStr "banana") = .error .configurationError
    ∧ TimeSeriesLagTransformer.init (PyArg.pyStr "cumbia")
        (PyArg.pyStr "raise") (PyArg.pyBool false)
      = .error .configurationError := by
  refine ⟨?_, ?_, ?_, ?_, ?_, ?_⟩
  · exact (constructors_reject_invalid_arguments (PyArg.pyStr "banana")
      (PyArg.pyBool false) PyArg.pyNone PyArg.pyNone PyArg.pyNone
      PyArg.pyNone).1 (by simp) (by simp)
  · exact (constructors_reject_invalid_arguments (PyArg.pyStr "raise")
      (PyArg.pyStr "cumbia") PyArg.pyNone PyArg.pyNone PyArg.pyNone
      PyArg.pyNone).2.1 rfl
  · exact (constructors_reject_invalid_arguments PyArg.pyNone PyArg.pyNone
      (PyArg.pyInt 3) (PyArg.pyBool true) (PyArg.pyStr "ignore")
      PyArg.pyNone).2.2.1 rfl
  · exact (constructors_reject_invalid_arguments PyArg.pyNone PyArg.pyNone
      (PyArg.pyBool true) PyArg.pyNone (PyArg.pyStr "raise")
      PyArg.pyNone).2.2.2.1 rfl
  · exact (constructors_reject_invalid_arguments PyArg.pyNone PyArg.pyNone
      (PyArg.pyBool true) (PyArg.pyBool false) (PyArg.pyStr "banana")
      PyArg.pyNone).2.2.2.2.1 (by simp) (by simp)
  · exact (constructors_reject_invalid_arguments (PyArg.pyStr "raise")
      (PyArg.pyBool false) PyArg.pyNone PyArg.pyNone PyArg.pyNone
      (PyArg.pyStr "cumbia")).2.2.2.2.2 rfl

/-- C7 counterexample: at a concrete valid training input,
`TargetMeanPredictor.fit` completes but its returned value is Python None
(`Option.none`), not the transformer object itself — so "fit returns
self" fails for this transformer (its fit body is a stub). -/
theorem targetMeanPredictor_fit_returns_none_not_self :
    TargetMeanPredictor.fit refParams (.frame refX) refMarks
      = .ok (Option.none, refStubState, refX, refMarks)
    ∧ (Option.none : Option TargetMeanPredictorState) ≠ some refStubState := by
  exact ⟨rfl, by simp⟩

/-- C7 amended: `MeanEncoder.fit` returns the very (updated) self object
and leaves `X` and `y` unchanged; `TargetMeanPredictor.fit` also leaves
`X` and `y` unchanged, but — its body being a stub — returns None instead
of self.  Result tuples are (returned value, self after, X after,
y after). -/
theorem fit_returns_self_and_preserves_inputs
    (self : MeanEncoderSelf) (X : Frame) (y : List ℚ)
    (p : TargetMeanPredictorParams) (X2 : Frame) (y2 : List CellVal)
    (hna : frameContainsNa X2 = false) :
    (∃ r, MeanEncoder.fit self X y = .ok r
      ∧ r.1 = some r.2.1 ∧ r.2.2.1 = X ∧ r.2.2.2 = y)
    ∧ (∃ r, TargetMeanPredictor.fit p (.frame X2) y2 = .ok r
      ∧ r.1 = Option.none ∧ r.2.2.1 = X2 ∧ r.2.2.2 = y2) := by
  constructor
  · exact ⟨_, rfl, rfl, rfl, rfl⟩
  · refine ⟨(Option.none,
      { params := p, variables_ := Option.none,
        encoder_num_dict_ := Option.none,
        encoder_cat_dict_ := Option.none }, X2, y2), ?_, rfl, rfl, rfl⟩
    unfold TargetMeanPredictor.fit
    simp [hna]

/-- Witness for the amended C7 at concrete inputs. -/
theorem fit_returns_self_and_preserves_inputs_witness :
    (∃ r, MeanEncoder.fit wEncSelf wCatX wCatY = .ok r
      ∧ r.1 = some r.2.1 ∧ r.2.2.1 = wCatX ∧ r.2.2.2 = wCatY)
    ∧ (∃ r, TargetMeanPredictor.fit refParams (.frame refX) refMarks = .ok r
      ∧ r.1 = Option.none ∧ r.2.2.1 = refX ∧ r.2.2.2 = refMarks) :=
  fit_returns_self_and_preserves_inputs wEncSelf wCatX wCatY refParams refX
    refMarks (by rfl)

/-- Lookup in an association list keyed by its own elements. -/
theorem lookup_map_pair {α β : Type} [DecidableEq α] (f : α → β) :
    ∀ (l : List α) (k : α),
      (l.map (fun a => (a, f a))).lookup k
        = if k ∈ l then some (f k) else Option.none := by
  intro l k
  induction l with
  | nil => simp
  | cons a t ih =>
    by_cases h : k = a
    · subst h
      simp [List.lookup]
    · have hba : (k == a) = false := beq_eq_false_iff_ne.mpr h
      simp [List.lookup, hba, h, ih]

/-- The learned dictionary of a fitted mean encoder for a configured
variable is the groupby-mean dictionary of that variable's column. -/
theorem fittedDict_eq (self : MeanEncoderSelf) (X : Frame) (y : List ℚ)
    (v : String) (hv : v ∈ resolveVariables self.variablesCfg X) :
    fittedDict self X y v = some (groupbyMeanDict (colOf X v) y) := by
  unfold fittedDict MeanEncoder.fit
  simp only
  rw [lookup_map_pair (fun a => groupbyMeanDict (colOf X a) y)]
  simp [hv]

/-- Expansion of the matching-row positions over a cons cell. -/
theorem matchIdx_cons (c : CellVal) (ct : List CellVal) (k : CellVal) :
    matchIdx (c :: ct) k
      = (if c = k then [0] else []) ++ (matchIdx ct k).map Nat.succ := by
  unfold matchIdx
  simp only [List.length_cons]
  rw [List.range_succ_eq_map, List.filter_cons, List.filter_map]
  by_cases hc : c = k
  · simp [hc, Function.comp_def, List.getElem?_cons_succ]
  · simp [hc, Function.comp_def, List.getElem?_cons_succ]

/-- The positional zip-filter of the source's groupby agrees with the
index-based selection of the rows where the column equals `k`. -/
theorem zip_filter_eq_matchIdx (k : CellVal) :
    ∀ (col : List CellVal) (y : List ℚ), col.length = y.length →
      ((col.zip y).filter (fun p => decide (p.1 = k))).map Prod.snd
        = (matchIdx col k).map (fun i => y.getD i 0) := by
  intro col
  induction col with
  | nil =>
    intro y h
    simp [matchIdx]
  | cons c ct ih =>
    intro y h
    cases y with
    | nil => simp at h
    | cons a ta =>
      have hL := ih ta (by simpa using h)
      rw [matchIdx_cons]
      by_cases hc : c = k
      · simp [hc, List.filter_cons, hL, Function.comp]
      · simp [hc, List.filter_cons, hL, Function.comp]

/-- The group mean computed by the source equals the spec-side mean over
the rows where the column equals `k`. -/
theorem groupMean_eq_specTargetMean (col : List CellVal) (y : List ℚ)
    (k : CellVal) (h : col.length = y.length) :
    groupMean col y k = specTargetMean col y k := by
  unfold groupMean specTargetMean
  rw [zip_filter_eq_matchIdx k col y h]
  simp

/-- C3: after `MeanEncoder.fit(X, y)`, the encoding dictionary entry for a
configured variable `v` exists, its keys are exactly the distinct values
of `v` observed in `X`, and it maps each observed value `k` to the
arithmetic mean of `y` over the rows of `X` where `v` equals `k`. -/
theorem meanEncoder_fit_encoding_dictionary
    (self : MeanEncoderSelf) (X : Frame) (y : List ℚ) (v : String)
    (hv : v ∈ resolveVariables self.variablesCfg X)
    (hlen : (colOf X v).length = y.length) :
    ∃ d, fittedDict self X y v = some d
      ∧ (∀ k : CellVal, (d.lookup k).isSome = true ↔ k ∈ colOf X v)
      ∧ (∀ k : CellVal, k ∈ colOf X v →
          d.lookup k = some (specTargetMean (colOf X v) y k)) := by
  refine ⟨groupbyMeanDict (colOf X v) y, fittedDict_eq self X y v hv, ?_, ?_⟩
  · intro k
    unfold groupbyMeanDict
    rw [lookup_map_pair (groupMean (colOf X v) y)]
    by_cases hk : k ∈ colOf X v
    · rw [if_pos (List.mem_dedup.mpr hk)]
      simp [hk]
    · rw [if_neg (fun hd => hk (List.mem_dedup.mp hd))]
      simp [hk]
  · intro k hk
    unfold groupbyMeanDict
    rw [lookup_map_pair (groupMean (colOf X v) y)]
    rw [if_pos (List.mem_dedup.mpr hk)]
    rw [groupMean_eq_specTargetMean (colOf X v) y k hlen]

/-- Witness for C3 at a concrete encoder, table and target. -/
theorem meanEncoder_fit_encoding_dictionary_witness :
    ∃ d, fittedDict wEncSelf wCatX wCatY "City" = some d
      ∧ (∀ k : CellVal, (d.lookup k).isSome = true ↔ k ∈ colOf wCatX "City")
      ∧ (∀ k : CellVal, k ∈ colOf wCatX "City" →
          d.lookup k = some (specTargetMean (colOf wCatX "City") wCatY k)) :=
  meanEncoder_fit_encoding_dictionary wEncSelf wCatX wCatY "City"
    (by simp [resolveVariables, wEncSelf]) (by rfl)

/-- An edge that fails value ≤ edge satisfies edge < value. -/
theorem geVal_false_ltVal (e : Edge) (v : ℚ) (h : e.geVal v = false) :
    e.ltVal v = true := by
  cases e with
  | ninf => rfl
  | pinf => simp [Edge.geVal] at h
  | fin q =>
    simp only [Edge.geVal, decide_eq_false_iff_not] at h
    simp only [Edge.ltVal, decide_eq_true_eq]
    exact lt_of_not_le h

/-- pandas cut never yields NaN when the first edge lies strictly below the
value and the last edge lies at or above it. -/
theorem pdCut_isSome_of_head_last (v : ℚ) :
    ∀ (es : List Edge) (e : Edge), e.ltVal v = true → es ≠ [] →
      (∀ l, es.getLast? = some l → l.geVal v = true) →
      (pdCut (e :: es) v).isSome = true := by
  intro es
  induction es with
  | nil =>
    intro e _ hne _
    exact absurd rfl hne
  | cons e2 t ih =>
    intro e he _ hlast
    cases t with
    | nil =>
      have h2 : e2.geVal v = true := hlast e2 rfl
      simp [pdCut, he, h2]
    | cons e3 t2 =>
      by_cases hge : e2.geVal v = true
      · simp [pdCut, he, hge]
      · have hge' : e2.geVal v = false := by
          simpa using hge
        have hlt2 : e2.ltVal v = true := geVal_false_ltVal e2 v hge'
        have hrec := ih e2 hlt2 (by simp)
          (fun l hl => hlast l (by rw [List.getLast?_cons_cons]; exact hl))
        have hstep : pdCut (e :: e2 :: e3 :: t2) v
            = if (e.ltVal v && e2.geVal v) = true then some 0
              else (pdCut (e2 :: e3 :: t2) v).map (· + 1) := rfl
        rw [hstep, hge']
        rcases Option.isSome_iff_exists.mp hrec with ⟨n, hn⟩
        rw [hn]
        simp

/-- When the value lies strictly above a run of edges, pandas cut lands in
the final interval before the closing edge. -/
theorem pdCut_skip_all (v : ℚ) :
    ∀ (es : List Edge) (e : Edge), e.ltVal v = true →
      (∀ x ∈ es, x.geVal v = false) →
      pdCut (e :: (es ++ [Edge.pinf])) v = some es.length := by
  intro es
  induction es with
  | nil =>
    intro e he _
    simp [pdCut, he, Edge.geVal]
  | cons e2 t ih =>
    intro e he hall
    have h2 : e2.geVal v = false := hall e2 (by simp)
    have hlt2 : e2.ltVal v = true := geVal_false_ltVal e2 v h2
    have hrec := ih e2 hlt2 (fun x hx => hall x (by simp [hx]))
    have hstep : pdCut (e :: ((e2 :: t) ++ [Edge.pinf])) v
        = if (e.ltVal v && e2.geVal v) = true then some 0
          else (pdCut (e2 :: (t ++ [Edge.pinf])) v).map (· + 1) := rfl
    rw [hstep, h2, hrec]
    simp

/-- Every interior equal-width edge lies at or below the training maximum. -/
theorem interior_edge_le_hi (lo hi : ℚ) (bins : ℕ) (i : ℕ)
    (hb : 1 ≤ bins) (hlh : lo ≤ hi) (hi_lt : i < bins - 1) :
    lo + (hi - lo) * (i + 1) / bins ≤ hi := by
  have hb0 : (0 : ℚ) < (bins : ℚ) := by
    exact_mod_cast Nat.lt_of_lt_of_le Nat.zero_lt_one hb
  have hle : ((i : ℚ) + 1) / (bins : ℚ) ≤ 1 := by
    rw [div_le_one hb0]
    have : i + 1 ≤ bins := by omega
    exact_mod_cast this
  have hnn : (0 : ℚ) ≤ hi - lo := sub_nonneg.mpr hlh
  calc lo + (hi - lo) * (i + 1) / bins
      = lo + (hi - lo) * (((i : ℚ) + 1) / bins) := by ring
    _ ≤ lo + (hi - lo) * 1 := by
        exact add_le_add_left (mul_le_mul_of_nonneg_left hle hnn) lo
    _ = hi := by ring

/-- C4: with equal-width edges learned on the training range [lo, hi],
the cut of any value is defined (never NaN, hence no failure and no
missing-value marker), a value below the training range lands in the
first bin, and a value above it lands in the last bin. -/
theorem discretiser_out_of_range_to_boundary_bins
    (lo hi v : ℚ) (bins : ℕ) (hb : 1 ≤ bins) (hlh : lo ≤ hi) :
    (pdCut (equalWidthEdges lo hi bins) v).isSome = true
    ∧ (v < lo → pdCut (equalWidthEdges lo hi bins) v = some 0)
    ∧ (hi < v → pdCut (equalWidthEdges lo hi bins) v = some (bins - 1)) := by
  refine ⟨?_, ?_, ?_⟩
  · unfold equalWidthEdges
    apply pdCut_isSome_of_head_last v _ Edge.ninf rfl (by simp)
    intro l hl
    rw [List.getLast?_concat] at hl
    cases hl
    rfl
  · intro hv
    unfold equalWidthEdges interiorEdges
    have hb0 : (0 : ℚ) < (bins : ℚ) := by
      exact_mod_cast Nat.lt_of_lt_of_le Nat.zero_lt_one hb
    cases hbn : bins - 1 with
    | zero =>
      simp [pdCut, Edge.ltVal, Edge.geVal]
    | succ m =>
      rw [List.range_succ_eq_map]
      have hc0 : v ≤ lo + (hi - lo) / (bins : ℚ) := by
        have hnn : (0 : ℚ) ≤ (hi - lo) / (bins : ℚ) :=
          div_nonneg (sub_nonneg.mpr hlh) hb0.le
        linarith
      simp [pdCut, Edge.ltVal, Edge.geVal, hc0]
  · intro hv
    unfold equalWidthEdges
    have hall : ∀ x ∈ interiorEdges lo hi bins, x.geVal v = false := by
      intro x hx
      unfold interiorEdges at hx
      rw [List.mem_map] at hx
      obtain ⟨i, hi_mem, rfl⟩ := hx
      rw [List.mem_range] at hi_mem
      simp only [Edge.geVal, decide_eq_false_iff_not]
      intro hle
      exact absurd hv
        (not_lt.mpr (le_trans hle (interior_edge_le_hi lo hi bins i hb hlh hi_mem)))
    have h := pdCut_skip_all v (interiorEdges lo hi bins) Edge.ninf rfl hall
    have hlen : (interiorEdges lo hi bins).length = bins - 1 := by
      unfold interiorEdges
      simp
    rw [h, hlen]

/-- Witness for C4: with 5 equal-width bins learned on [20, 45], the value
19 lands in bin 0 and the value 100 in bin 4. -/
theorem discretiser_out_of_range_to_boundary_bins_witness :
    pdCut (equalWidthEdges 20 45 5) 19 = some 0
    ∧ pdCut (equalWidthEdges 20 45 5) 100 = some 4 := by
  constructor
  · exact (discretiser_out_of_range_to_boundary_bins 20 45 19 5 (by norm_num)
      (by norm_num)).2.1 (by norm_num)
  · exact (discretiser_out_of_range_to_boundary_bins 20 45 100 5 (by norm_num)
      (by norm_num)).2.2 (by norm_num)

end FeatureEngine
